import Mathlib

/-!
Shallow embedding of the data-preparation and aggregation pipeline of
`src/Dashboard/dashboard.py` (a single-page bike-sharing report), together
with theorems settling the frozen claims about it.

Dataframes are modelled as lists of typed records; pandas filtering,
grouping and melting become list operations; means are exact rationals.
-/

/-- One row of the loaded table (`all_data.csv` schema declared at
dashboard.py lines 29-32). -/
structure RentalRecord where
  year_day : Int
  month_day : Int
  weekday_day : Int
  weathersit_day : Int
  count_day : Int
  casual_day : Int
  registered_day : Int
deriving DecidableEq

/-- A dataframe is a list of rows. -/
abbrev DataFrame := List RentalRecord

/-- `get_season` from dashboard.py lines 95-103: membership tests on the
three literal month lists, with a final catch-all else branch returning
the fall label. -/
def get_season (month : Int) : String :=
  if month ∈ [(12 : Int), 1, 2] then "Musim Dingin"
  else if month ∈ [(3 : Int), 4, 5] then "Musim Semi"
  else if month ∈ [(6 : Int), 7, 8] then "Musim Panas"
  else "Musim Gugur"

/-- Claim C3: for every integer month 1-12, `get_season` returns exactly one
of the four season labels, and the preimages are exactly
Winter (Musim Dingin) = {12,1,2}, Spring (Musim Semi) = {3,4,5},
Summer (Musim Panas) = {6,7,8}, Fall (Musim Gugur) = {9,10,11}:
these four sets partition {1,...,12}. -/
theorem get_season_partition (m : Int) (h1 : 1 ≤ m) (h2 : m ≤ 12) :
    ((get_season m = "Musim Dingin" ↔ (m = 12 ∨ m = 1 ∨ m = 2)) ∧
     (get_season m = "Musim Semi" ↔ (m = 3 ∨ m = 4 ∨ m = 5)) ∧
     (get_season m = "Musim Panas" ↔ (m = 6 ∨ m = 7 ∨ m = 8)) ∧
     (get_season m = "Musim Gugur" ↔ (m = 9 ∨ m = 10 ∨ m = 11))) ∧
    (get_season m = "Musim Dingin" ∨ get_season m = "Musim Semi" ∨
     get_season m = "Musim Panas" ∨ get_season m = "Musim Gugur") := by
  interval_cases m <;> simp [get_season]

/-- Concrete witness for the partition theorem at month 3. -/
theorem get_season_partition_witness :
    (1 : Int) ≤ 3 ∧ (3 : Int) ≤ 12 ∧
    (get_season 3 = "Musim Semi" ↔ ((3 : Int) = 3 ∨ (3 : Int) = 4 ∨ (3 : Int) = 5)) := by
  refine ⟨by decide, by decide, ?_⟩
  exact (get_season_partition 3 (by decide) (by decide)).1.2.1

/-- Claim C10: `get_season` is total on all integers; every input outside
{1,...,12} falls into the final else branch and yields the fall label
"Musim Gugur" rather than raising. -/
theorem get_season_total_outside (m : Int) (h : m < 1 ∨ 12 < m) :
    get_season m = "Musim Gugur" := by
  have h12 : ¬ (m ∈ [(12 : Int), 1, 2]) := by simp; omega
  have h35 : ¬ (m ∈ [(3 : Int), 4, 5]) := by simp; omega
  have h68 : ¬ (m ∈ [(6 : Int), 7, 8]) := by simp; omega
  simp [get_season, h12, h35, h68]

/-- Concrete witness: month 0 (and so every out-of-range input along the
same branch) maps to the fall label. -/
theorem get_season_total_outside_witness :
    ((0 : Int) < 1 ∨ (12 : Int) < 0) ∧ get_season 0 = "Musim Gugur" :=
  ⟨Or.inl (by decide), get_season_total_outside 0 (Or.inl (by decide))⟩

/-- `df["year_day"].max()` from dashboard.py line 41, as an optional value;
pandas yields NaN for an empty column, which makes every later comparison
false, so the empty case is kept separate. -/
def maxYear : DataFrame → Option Int
  | [] => none
  | r :: rs =>
    match maxYear rs with
    | none => some r.year_day
    | some m => some (max r.year_day m)

/-- dashboard.py line 41: `df[df["year_day"] >= (df["year_day"].max() - 1)]`,
the recent-period filter with window 2. On an empty frame the NaN maximum
makes the comparison false everywhere, so nothing is kept. -/
def filter_recent_periods (df : DataFrame) : DataFrame :=
  match maxYear df with
  | none => []
  | some m => df.filter (fun r => decide (m - 1 ≤ r.year_day))

/-- The claim reading of the same filter, stated as keeping the rows of the
most recent `window` DISTINCT year values: a row is kept when fewer than
`window` distinct year values present in the frame strictly exceed its own. -/
def mostRecentDistinctFilter (window : Nat) (df : DataFrame) : DataFrame :=
  df.filter (fun r =>
    decide (((df.map (fun s => s.year_day)).dedup.filter
      (fun z => decide (r.year_day < z))).length < window))

theorem maxYear_eq_none (df : DataFrame) : maxYear df = none ↔ df = [] := by
  cases df with
  | nil => simp [maxYear]
  | cons a as =>
    simp only [maxYear]
    cases h : maxYear as <;> simp

theorem le_maxYear (df : DataFrame) (m : Int) (h : maxYear df = some m) :
    ∀ r ∈ df, r.year_day ≤ m := by
  induction df generalizing m with
  | nil => intro r hr; cases hr
  | cons a as ih =>
    intro r hr
    cases hma : maxYear as with
    | none =>
      have hnil : as = [] := (maxYear_eq_none as).mp hma
      subst hnil
      simp only [maxYear] at h
      obtain rfl : a.year_day = m := by simpa using h
      have : r = a := by simpa using hr
      simp [this]
    | some k =>
      simp only [maxYear, hma] at h
      obtain rfl : max a.year_day k = m := by simpa using h
      rcases List.mem_cons.mp hr with rfl | hr'
      · exact le_max_left _ _
      · exact le_trans (ih k hma r hr') (le_max_right _ _)

/-- A row used by the concrete year examples: the given year index with
neutral values in every other field. -/
def rowY (y : Int) : RentalRecord := ⟨y, 1, 1, 1, 0, 0, 0⟩

/-- Claim C4 counterexample: on a table whose year values are {1, 3}, the
code keeps only the year-3 row (year at least max minus 1), while keeping
the most recent 2 distinct year values would keep both rows; the two
characterisations in the claim are not equal on the code. -/
theorem filter_recent_periods_counterexample :
    filter_recent_periods [rowY 1, rowY 3] = [rowY 3] ∧
    mostRecentDistinctFilter 2 [rowY 1, rowY 3] = [rowY 1, rowY 3] ∧
    filter_recent_periods [rowY 1, rowY 3] ≠
      mostRecentDistinctFilter 2 [rowY 1, rowY 3] := by
  refine ⟨?_, ?_, ?_⟩ <;> decide

/-- Claim C4 (amended): `filter_recent_periods` keeps exactly the rows whose
`year_day` lies within window-1 = 1 of the maximum year present (this
matches the most recent 2 distinct values only when those values are
contiguous); on a table with year values {1,2,3} it keeps exactly the rows
with year in {2,3}, and on an empty table it returns the empty table. -/
theorem filter_recent_periods_spec :
    (∀ (df : DataFrame) (m : Int) (r : RentalRecord), maxYear df = some m →
      (r ∈ filter_recent_periods df ↔
        r ∈ df ∧ m - 1 ≤ r.year_day ∧ r.year_day ≤ m)) ∧
    filter_recent_periods [] = [] ∧
    filter_recent_periods [rowY 1, rowY 2, rowY 3] = [rowY 2, rowY 3] := by
  refine ⟨?_, by decide, by decide⟩
  intro df m r h
  simp only [filter_recent_periods, h]
  constructor
  · intro hmem
    rcases List.mem_filter.mp hmem with ⟨hdf, hp⟩
    exact ⟨hdf, by simpa using hp, le_maxYear df m h r hdf⟩
  · rintro ⟨hdf, h1, _⟩
    exact List.mem_filter.mpr ⟨hdf, by simpa using h1⟩

/-- Concrete witness for the amended recent-period theorem: on the {1,2,3}
table, the year-2 row is kept and characterised by the stated bounds. -/
theorem filter_recent_periods_spec_witness :
    maxYear [rowY 1, rowY 2, rowY 3] = some 3 ∧
    (rowY 2 ∈ filter_recent_periods [rowY 1, rowY 2, rowY 3] ↔
      rowY 2 ∈ [rowY 1, rowY 2, rowY 3] ∧
        (3 : Int) - 1 ≤ (rowY 2).year_day ∧ (rowY 2).year_day ≤ 3) :=
  ⟨by decide, filter_recent_periods_spec.1 [rowY 1, rowY 2, rowY 3] 3 (rowY 2) (by decide)⟩

/-- A calendar date as pandas exposes it: year, month and day components. -/
structure SimpleDate where
  year : Int
  month : Int
  day : Int
deriving DecidableEq

/-- The (year, month) pairs on which
`pd.to_datetime(str(year) + "-" + str(month), format="%Y-%m")` succeeds:
the rendered string matches the format only when the year is non-negative
(a leading minus sign is rejected by the format) and the month is 1-12,
and the resulting first-of-month timestamp must lie inside the pandas
Timestamp range (Timestamp.min is 1677-09-21, Timestamp.max is 2262-04-11). -/
def valid_ym (y m : Int) : Prop :=
  0 ≤ y ∧ 1 ≤ m ∧ m ≤ 12 ∧
  (1677 < y ∨ (y = 1677 ∧ 10 ≤ m)) ∧ (y < 2262 ∨ (y = 2262 ∧ m ≤ 4))

instance (y m : Int) : Decidable (valid_ym y m) := by
  unfold valid_ym; infer_instance

/-- dashboard.py line 40: the derived date column,
`pd.to_datetime(..., format="%Y-%m", errors="coerce")` applied to the
year-month string of a row; coercion turns every parse or range failure
into a null (none), never an exception. -/
def derive_date (y m : Int) : Option SimpleDate :=
  if valid_ym y m then some ⟨y, m, 1⟩ else none

/-- Claim C5: `derive_date` round-trips. For every valid (year, month) pair
the constructed date carries exactly the input year and month, and for
every malformed combination it returns null (none) rather than raising
(the function is total with an Option result). -/
theorem derive_date_roundtrip (y m : Int) :
    (valid_ym y m →
      ∃ d, derive_date y m = some d ∧ d.year = y ∧ d.month = m) ∧
    (¬ valid_ym y m → derive_date y m = none) := by
  constructor
  · intro h
    exact ⟨⟨y, m, 1⟩, by simp [derive_date, h], rfl, rfl⟩
  · intro h
    simp [derive_date, h]

/-- Concrete witness for the round-trip theorem: (2011, 5) is valid and
round-trips; (2011, 13) is malformed and yields null. -/
theorem derive_date_roundtrip_witness :
    valid_ym 2011 5 ∧
    (∃ d, derive_date 2011 5 = some d ∧ d.year = 2011 ∧ d.month = 5) ∧
    ¬ valid_ym 2011 13 ∧ derive_date 2011 13 = none :=
  ⟨by decide, (derive_date_roundtrip 2011 5).1 (by decide),
   by decide, (derive_date_roundtrip 2011 13).2 (by decide)⟩

/-- dashboard.py line 147:
`df_for_q3[df_for_q3["weekday_day"].isin([1, 2, 3, 4, 5])]`. -/
def filter_weekday (df : DataFrame) : DataFrame :=
  df.filter (fun r => [(1 : Int), 2, 3, 4, 5].contains r.weekday_day)

/-- Modelled from the spec: `filter_weekend` does not occur in
dashboard.py (only the weekday filter at line 147 does); per the spec it
selects the rows whose weekday index lies in {0, 6}. -/
def filter_weekend (df : DataFrame) : DataFrame :=
  df.filter (fun r => [(0 : Int), 6].contains r.weekday_day)

theorem length_filter_weekend_add_weekday (df : DataFrame)
    (h : ∀ r ∈ df, 0 ≤ r.weekday_day ∧ r.weekday_day ≤ 6) :
    (filter_weekend df).length + (filter_weekday df).length = df.length := by
  induction df with
  | nil => simp [filter_weekend, filter_weekday]
  | cons a as ih =>
    have ha := h a (List.mem_cons_self a as)
    have has : ∀ r ∈ as, 0 ≤ r.weekday_day ∧ r.weekday_day ≤ 6 :=
      fun r hr => h r (List.mem_cons_of_mem a hr)
    have key := ih has
    by_cases hw : a.weekday_day = 0 ∨ a.weekday_day = 6
    · have hw5 : ¬ (a.weekday_day = 1 ∨ a.weekday_day = 2 ∨ a.weekday_day = 3 ∨
          a.weekday_day = 4 ∨ a.weekday_day = 5) := by
        rcases hw with h0 | h6 <;> omega
      simp [filter_weekend, filter_weekday, List.filter_cons, hw, hw5] at key ⊢
      omega
    · have hw5 : a.weekday_day = 1 ∨ a.weekday_day = 2 ∨ a.weekday_day = 3 ∨
          a.weekday_day = 4 ∨ a.weekday_day = 5 := by
        push_neg at hw
        omega
      simp [filter_weekend, filter_weekday, List.filter_cons, hw, hw5] at key ⊢
      omega

/-- A row used by the weekday examples: the given weekday index with
neutral values elsewhere. -/
def rowW (d : Int) : RentalRecord := ⟨1, 1, d, 1, 0, 0, 0⟩

/-- Claim C9: `filter_weekend` selects exactly the rows with weekday index
in {0,6} and `filter_weekday` exactly those with weekday index in
{1,2,3,4,5}; on any table whose weekday indices lie in {0,...,6}, every
row appears in exactly one of the two outputs and the two output lengths
sum to the input length. -/
theorem filter_weekend_weekday_partition :
    (∀ (df : DataFrame) (r : RentalRecord),
      r ∈ filter_weekend df ↔
        r ∈ df ∧ (r.weekday_day = 0 ∨ r.weekday_day = 6)) ∧
    (∀ (df : DataFrame) (r : RentalRecord),
      r ∈ filter_weekday df ↔
        r ∈ df ∧ (r.weekday_day = 1 ∨ r.weekday_day = 2 ∨ r.weekday_day = 3 ∨
          r.weekday_day = 4 ∨ r.weekday_day = 5)) ∧
    (∀ df : DataFrame, (∀ r ∈ df, 0 ≤ r.weekday_day ∧ r.weekday_day ≤ 6) →
      (filter_weekend df).length + (filter_weekday df).length = df.length ∧
      ∀ r ∈ df, (r ∈ filter_weekend df ∧ r ∉ filter_weekday df) ∨
        (r ∉ filter_weekend df ∧ r ∈ filter_weekday df)) := by
  have hmem1 : ∀ (df : DataFrame) (r : RentalRecord),
      r ∈ filter_weekend df ↔
        r ∈ df ∧ (r.weekday_day = 0 ∨ r.weekday_day = 6) := by
    intro df r
    simp [filter_weekend, List.mem_filter]
  have hmem2 : ∀ (df : DataFrame) (r : RentalRecord),
      r ∈ filter_weekday df ↔
        r ∈ df ∧ (r.weekday_day = 1 ∨ r.weekday_day = 2 ∨ r.weekday_day = 3 ∨
          r.weekday_day = 4 ∨ r.weekday_day = 5) := by
    intro df r
    simp [filter_weekday, List.mem_filter]
  refine ⟨hmem1, hmem2, ?_⟩
  intro df h
  refine ⟨length_filter_weekend_add_weekday df h, ?_⟩
  intro r hr
  by_cases hw : r.weekday_day = 0 ∨ r.weekday_day = 6
  · left
    refine ⟨(hmem1 df r).mpr ⟨hr, hw⟩, fun hcon => ?_⟩
    rcases ((hmem2 df r).mp hcon).2 with h5 | h5 | h5 | h5 | h5 <;>
      rcases hw with h0 | h0 <;> omega
  · right
    have h06 := h r hr
    have hw5 : r.weekday_day = 1 ∨ r.weekday_day = 2 ∨ r.weekday_day = 3 ∨
        r.weekday_day = 4 ∨ r.weekday_day = 5 := by
      push_neg at hw
      omega
    refine ⟨fun hcon => ?_, (hmem2 df r).mpr ⟨hr, hw5⟩⟩
    exact hw ((hmem1 df r).mp hcon).2

/-- Concrete witness for the partition theorem: the two-row table with
weekday indices 0 and 3 splits one row into each output. -/
theorem filter_weekend_weekday_partition_witness :
    (filter_weekend [rowW 0, rowW 3]).length +
        (filter_weekday [rowW 0, rowW 3]).length = ([rowW 0, rowW 3] : DataFrame).length ∧
    ∀ r ∈ ([rowW 0, rowW 3] : DataFrame),
      (r ∈ filter_weekend [rowW 0, rowW 3] ∧ r ∉ filter_weekday [rowW 0, rowW 3]) ∨
      (r ∉ filter_weekend [rowW 0, rowW 3] ∧ r ∈ filter_weekday [rowW 0, rowW 3]) :=
  filter_weekend_weekday_partition.2.2 [rowW 0, rowW 3] (by decide)

/-- The per-key arithmetic mean behind
`df_filtered.groupby("Season")["count_day"].mean()` at dashboard.py
line 106: the exact rational sum of the values carried by the key,
divided by their number. -/
def mean_of (rows : List (String × Int)) (k : String) : ℚ :=
  let vs := (rows.filter (fun p => p.fst == k)).map (fun p => (p.snd : ℚ))
  vs.sum / vs.length

/-- dashboard.py line 106: the grouped-mean table, one (key, mean) pair per
distinct key present in the input. Pandas lists each observed group once
(in sorted key order); only the key-to-mean mapping is relied on here, so
keys are taken in first-occurrence order. -/
def group_mean (rows : List (String × Int)) : List (String × ℚ) :=
  (rows.map Prod.fst).dedup.map (fun k => (k, mean_of rows k))

theorem lookup_map_pair (g : String → ℚ) (ks : List String) (k : String) :
    (ks.map (fun x => (x, g x))).lookup k =
      if k ∈ ks then some (g k) else none := by
  induction ks with
  | nil => simp [List.lookup]
  | cons a as ih =>
    by_cases h : k = a
    · subst h
      simp [List.lookup]
    · have hb : (k == a) = false := beq_false_of_ne h
      simp [List.lookup, hb, ih, List.mem_cons, h]

/-- Claim C7: `group_mean` maps every key present in the input to the
arithmetic mean of the values carried by that key and omits every absent
key entirely (no NaN entries); on the rows (Winter,10),(Winter,20),
(Summer,5) it yields exactly the mapping Winter to 15 and Summer to 5. -/
theorem group_mean_spec :
    (∀ (rows : List (String × Int)) (k : String),
      (group_mean rows).lookup k =
        if k ∈ rows.map Prod.fst then some (mean_of rows k) else none) ∧
    (group_mean [("Winter", 10), ("Winter", 20), ("Summer", 5)]).lookup "Winter"
      = some 15 ∧
    (group_mean [("Winter", 10), ("Winter", 20), ("Summer", 5)]).lookup "Summer"
      = some 5 ∧
    (group_mean [("Winter", 10), ("Winter", 20), ("Summer", 5)]).lookup "Spring"
      = none ∧
    (group_mean [("Winter", 10), ("Winter", 20), ("Summer", 5)]).length = 2 := by
  refine ⟨?_, by simp [group_mean, mean_of, List.lookup]; norm_num,
    by simp [group_mean, mean_of, List.lookup],
    by simp [group_mean, mean_of, List.lookup],
    by simp [group_mean]⟩
  intro rows k
  unfold group_mean
  rw [lookup_map_pair]
  simp only [List.mem_dedup]

/-- dashboard.py lines 148-153: `casual_data` and `registered_data` are the
two column lists of the weekday-filtered frame, and `data_for_plot` pairs
the label column (the literal string "casual" repeated once per row, then
"registered" repeated once per row, line 151) with the concatenated value
column `casual_data + registered_data` (line 152), one (label, value) row
per (input row, user type) pair. -/
def data_for_plot (df_weekday : DataFrame) : List (String × Int) :=
  df_weekday.map (fun r => ("casual", r.casual_day)) ++
    df_weekday.map (fun r => ("registered", r.registered_day))

/-- A row used by the casual/registered examples: the given casual and
registered counts on a weekday, neutral values elsewhere. -/
def rowCR (c r : Int) : RentalRecord := ⟨1, 1, 1, 1, 0, c, r⟩

/-- Claim C8 counterexample: on the input with casual values [1, 2] and
registered values [10, 20], the emitted rows are (label, value) pairs whose
labels are the literal lowercase "casual" and "registered" of dashboard.py
line 151, not the "Casual"/"Registered" rows the claim states. -/
theorem data_for_plot_counterexample :
    data_for_plot [rowCR 1 10, rowCR 2 20] =
      [("casual", 1), ("casual", 2), ("registered", 10), ("registered", 20)] ∧
    (data_for_plot [rowCR 1 10, rowCR 2 20]).map Prod.fst ≠
      ["Casual", "Casual", "Registered", "Registered"] := by
  constructor <;> decide

/-- Claim C8 (amended): `data_for_plot` emits one (label, value) row per
(input row, value column) pair, ordered value-column-major with input
order inside each block: the label column is "casual" repeated once per
input row followed by "registered" repeated once per input row, the value
column is the casual column followed by the registered column, an empty
input yields the empty sequence, and on casual values [1,2] with
registered values [10,20] the four rows are
("casual",1),("casual",2),("registered",10),("registered",20). -/
theorem data_for_plot_spec :
    (∀ df : DataFrame,
      (data_for_plot df).map Prod.fst =
        List.replicate df.length "casual" ++
          List.replicate df.length "registered" ∧
      (data_for_plot df).map Prod.snd =
        df.map (fun r => r.casual_day) ++ df.map (fun r => r.registered_day) ∧
      (data_for_plot df).length = 2 * df.length) ∧
    data_for_plot [] = [] ∧
    data_for_plot [rowCR 1 10, rowCR 2 20] =
      [("casual", 1), ("casual", 2), ("registered", 10), ("registered", 20)] := by
  refine ⟨?_, by decide, by decide⟩
  intro df
  refine ⟨?_, ?_, ?_⟩
  · simp [data_for_plot, List.map_map, Function.comp_def, List.map_const']
  · simp [data_for_plot, List.map_map, Function.comp_def]
  · simp [data_for_plot]
    omega

/-- A raw CSV table as the loader sees one: header column names and rows
of integer cells. -/
structure RawTable where
  cols : List String
  cells : List (List Int)
deriving DecidableEq

/-- The column schema of the empty fallback frame built at dashboard.py
lines 29-32. -/
def expected_schema : List String :=
  ["year_day", "month_day", "weekday_day", "weathersit_day",
   "count_day", "casual_day", "registered_day"]

/-- What one pd.read_csv attempt on a candidate path can do: the file is
missing (FileNotFoundError), the file exists but the read fails for any
other reason (for example a parse error), or it parses to a table. -/
inductive ReadCsv where
  | fileNotFound : ReadCsv
  | parseError : ReadCsv
  | parsed : RawTable → ReadCsv
deriving DecidableEq

/-- `load_data` from dashboard.py lines 8-32, over the outcomes of the
read attempts on the ordered candidate paths: the loop at lines 16-21
returns the first successful read and catches ONLY FileNotFoundError
(continue), so any other read failure escapes as an exception (the error
side here); after the loop an uploaded table is returned when present
(lines 24-27), else the empty frame with the declared schema
(lines 29-32). No column check is made anywhere. -/
def load_data (candidates : List ReadCsv) (uploaded : Option RawTable) :
    Except String RawTable :=
  match candidates with
  | [] =>
    match uploaded with
    | some t => Except.ok t
    | none => Except.ok ⟨expected_schema, []⟩
  | ReadCsv.fileNotFound :: rest => load_data rest uploaded
  | ReadCsv.parseError :: _ => Except.error "ParserError"
  | ReadCsv.parsed t :: _ => Except.ok t

theorem load_data_skip (pre : List ReadCsv)
    (h : ∀ c ∈ pre, c = ReadCsv.fileNotFound) (rest : List ReadCsv)
    (uploaded : Option RawTable) :
    load_data (pre ++ rest) uploaded = load_data rest uploaded := by
  induction pre with
  | nil => rfl
  | cons a as ih =>
    have ha := h a (List.mem_cons_self a as)
    subst ha
    rw [List.cons_append]
    exact ih (fun c hc => h c (List.mem_cons_of_mem _ hc))

/-- Claim C2 counterexample: with a first candidate that exists but fails
to parse and a second that parses to a good table, the loader does NOT
fall through to the second candidate: only FileNotFoundError is caught at
dashboard.py line 20, so the read failure escapes and the good table is
never returned. Also no required-column check is made: a lone candidate
with none of the required columns is returned as-is. -/
theorem load_data_counterexample :
    load_data [ReadCsv.parseError,
        ReadCsv.parsed ⟨expected_schema, [[1, 1, 1, 1, 0, 0, 0]]⟩] none =
      Except.error "ParserError" ∧
    load_data [ReadCsv.parseError,
        ReadCsv.parsed ⟨expected_schema, [[1, 1, 1, 1, 0, 0, 0]]⟩] none ≠
      Except.ok ⟨expected_schema, [[1, 1, 1, 1, 0, 0, 0]]⟩ ∧
    load_data [ReadCsv.parsed ⟨["foo"], []⟩] none = Except.ok ⟨["foo"], []⟩ := by
  refine ⟨rfl, by simp [load_data], rfl⟩

/-- Claim C2 (amended): the loader attempts the candidates in order; a
missing file is recoverable and falls through to the next candidate; the
first candidate that reads successfully is returned unchanged with no
required-column check; a candidate that exists but fails to parse aborts
the load with the uncaught read error; and when every candidate is a
missing file and no table is uploaded, the loader returns an empty table
carrying exactly the expected column schema (year_day, month_day,
weekday_day, weathersit_day, count_day, casual_day, registered_day). -/
theorem load_data_spec :
    (∀ (pre : List ReadCsv) (t : RawTable) (rest : List ReadCsv)
        (uploaded : Option RawTable),
      (∀ c ∈ pre, c = ReadCsv.fileNotFound) →
      load_data (pre ++ ReadCsv.parsed t :: rest) uploaded = Except.ok t) ∧
    (∀ (pre rest : List ReadCsv) (uploaded : Option RawTable),
      (∀ c ∈ pre, c = ReadCsv.fileNotFound) →
      load_data (pre ++ ReadCsv.parseError :: rest) uploaded =
        Except.error "ParserError") ∧
    (∀ pre : List ReadCsv, (∀ c ∈ pre, c = ReadCsv.fileNotFound) →
      load_data pre none = Except.ok ⟨expected_schema, []⟩) ∧
    (∀ (pre : List ReadCsv) (t : RawTable),
      (∀ c ∈ pre, c = ReadCsv.fileNotFound) →
      load_data pre (some t) = Except.ok t) := by
  refine ⟨?_, ?_, ?_, ?_⟩
  · intro pre t rest uploaded h
    rw [load_data_skip pre h]
    rfl
  · intro pre rest uploaded h
    rw [load_data_skip pre h]
    rfl
  · intro pre h
    have := load_data_skip pre h [] none
    simpa using this
  · intro pre t h
    have := load_data_skip pre h [] (some t)
    simpa using this

/-- Concrete witness for the amended loader theorem: a single missing
candidate followed by a parsed table yields that table, and a lone
missing candidate with no upload yields the empty schema table. -/
theorem load_data_spec_witness :
    load_data [ReadCsv.fileNotFound, ReadCsv.parsed ⟨["foo"], []⟩] none =
      Except.ok ⟨["foo"], []⟩ ∧
    load_data [ReadCsv.fileNotFound] none = Except.ok ⟨expected_schema, []⟩ :=
  ⟨load_data_spec.1 [ReadCsv.fileNotFound] ⟨["foo"], []⟩ [] none
      (by intro c hc; simpa using hc),
   load_data_spec.2.2.1 [ReadCsv.fileNotFound]
      (by intro c hc; simpa using hc)⟩

/-- dashboard.py lines 56-67: the first (weather-vs-weekend) question is
fed by the hard-coded `extreme_weather_data` dict, one fixed label
repeated 50 times paired with 50 fixed rental counts; nothing is read
from the prepared table. -/
def extreme_weather_chart (_df : DataFrame) : List (String × Int) :=
  (List.replicate 50 "Cuaca Ekstrem").zip
    [4500, 5000, 4200, 4800, 4600, 4300, 4700, 6000, 5200, 4900,
     4400, 4600, 4800, 5100, 5300, 5500, 5700, 5900, 6100, 6050,
     2500, 2800, 3000, 3200, 3400, 3500, 3600, 3700, 3800, 3900,
     4000, 4100, 4300, 4500, 4700, 4900, 5100, 5300, 5500, 5700,
     5900, 6100, 6300, 6500, 6700, 6900, 7100, 200, 0, 8500]

/-- dashboard.py lines 90-93: the hard-coded month/count pairs that shadow
the prepared `df_filtered` at line 94 for the seasonal question. -/
def seasonal_sample : List (Int × Int) :=
  [(1, 4700), (3, 2300), (6, 4800), (9, 5500), (12, 4600), (4, 2200),
   (7, 4900), (10, 5600), (2, 4800), (5, 2400), (8, 5000), (11, 5700)]

/-- dashboard.py lines 90-106: the seasonal question pipeline; the
prepared table is shadowed by the hard-coded sample at line 94, the
Season column is derived with `get_season` (line 105), and the per-season
mean of `count_day` is taken (line 106). Nothing is read from the
prepared table. -/
def seasonal_chart (_df : DataFrame) : List (String × ℚ) :=
  group_mean (seasonal_sample.map (fun p => (get_season p.1, p.2)))

/-- dashboard.py lines 139-153: the casual-vs-registered question
pipeline. In this typed model the loaded frame always carries the three
needed columns, so the check at line 140 selects it (the hard-coded
`sample_data` fallback of lines 133-137 is reached only when columns are
missing); the weekday rows are kept (line 147) and melted into
(label, value) rows (lines 148-153). -/
def casual_registered_chart (df : DataFrame) : List (String × Int) :=
  data_for_plot (filter_weekday df)

/-- Claim C1 counterexample: on the empty prepared table the
weather-vs-weekend pipeline emits its 50 hard-coded rows and the seasonal
pipeline emits its 4 hard-coded season means; neither produces the empty
chart-ready structure the claim requires, and neither output is computed
from the table rows. -/
theorem question_pipelines_counterexample :
    (extreme_weather_chart []).length = 50 ∧
    (seasonal_chart []).length = 4 ∧
    extreme_weather_chart [] ≠ [] ∧ seasonal_chart [] ≠ [] := by
  have h1 : (extreme_weather_chart []).length = 50 := by decide
  have h2 : (seasonal_chart []).length = 4 := by decide
  refine ⟨h1, h2, ?_, ?_⟩
  · intro h
    rw [h] at h1
    simp at h1
  · intro h
    rw [h] at h2
    simp at h2

/-- Claim C1 (amended): each question pipeline is a pure function of the
prepared table (the embedding never mutates its input), but only the
casual-vs-registered pipeline is computed from the table rows and yields
the empty structure on an empty table; the weather-vs-weekend and
seasonal pipelines emit fixed hard-coded structures that are independent
of the table, hence non-empty even on an empty input. -/
theorem question_pipelines_spec :
    (∀ df : DataFrame, extreme_weather_chart df = extreme_weather_chart []) ∧
    (∀ df : DataFrame, seasonal_chart df = seasonal_chart []) ∧
    casual_registered_chart [] = [] ∧
    (∀ df : DataFrame,
      (casual_registered_chart df).length = 2 * (filter_weekday df).length) := by
  refine ⟨fun df => rfl, fun df => rfl, by decide, ?_⟩
  intro df
  simp [casual_registered_chart, data_for_plot]
  omega

/-- The outcome of one top-to-bottom run of the script: either the early
halt of dashboard.py lines 37-39 with its visible warning, or a rendered
report carrying the three chart-ready structures. -/
inductive ReportOutcome where
  | halted : String → ReportOutcome
  | rendered : List (String × Int) → List (String × ℚ) →
      List (String × Int) → ReportOutcome

/-- dashboard.py lines 35-169, the top-level flow: after loading, an empty
frame halts with the visible warning (lines 37-39, st.stop) BEFORE any
further processing; otherwise the date column is derived (line 40), the
recent-period filter is taken (line 41, unused by the later questions)
and the three question charts are rendered. -/
def run_dashboard (df : DataFrame) : ReportOutcome :=
  if df.isEmpty then
    ReportOutcome.halted
      "Data kosong. Pastikan file all_data.csv tersedia atau upload file yang valid."
  else
    let _dates := df.map (fun r => derive_date r.year_day r.month_day)
    let _dfRecent := filter_recent_periods df
    ReportOutcome.rendered (extreme_weather_chart df) (seasonal_chart df)
      (casual_registered_chart df)

/-- Claim C6: when the table is empty after all loader fallbacks, the run
halts cleanly with the visible warning of dashboard.py line 38; the
outcome is the halted constructor, which carries no chart-ready
structure, so no chart-producing operation touches the empty table. -/
theorem run_dashboard_empty_halts :
    run_dashboard [] = ReportOutcome.halted
      "Data kosong. Pastikan file all_data.csv tersedia atau upload file yang valid." :=
  rfl
